import Mathlib

/-!
Shallow embedding of the cart / order / webhook / ticket logic of the
e-commerce backend (CartRepository, OrderRepository, OrderController,
StripeWebhookController, TicketRepository, TicketController), with proofs
of the specification's consistency and behavioural properties.

Numbers (prices, quantities, stock) are modelled as `Int`, matching the
JavaScript `number` fields used arithmetically by the code; identifiers are
`String`s; documents are Lean structures and stores are lists.
-/

namespace ECom

/-- Line item of a cart, mirroring the `CartItem` interface of the Cart model. -/
structure CartItem where
  productId : String
  title : String
  price : Int
  quantity : Int
  thumbnail : String
  addedAt : Nat
  deriving Repr, DecidableEq

/-- Cart document, mirroring the `Cart` interface of the Cart model. -/
structure Cart where
  userId : Option String
  items : List CartItem
  totalAmount : Int
  totalItems : Int
  isActive : Bool
  deriving Repr, DecidableEq

/-- Total quantity over items, as the code's
`items.reduce((total, item) => total + item.quantity, 0)`. -/
def itemsTotalQuantity (items : List CartItem) : Int :=
  items.foldl (fun total it => total + it.quantity) 0

/-- Total amount over items, as the code's
`items.reduce((total, item) => total + (item.price * item.quantity), 0)`. -/
def itemsTotalAmount (items : List CartItem) : Int :=
  items.foldl (fun total it => total + it.price * it.quantity) 0

namespace CartRepository

/-- Recalculation step shared by every cart mutation: store the new item
list and recompute `totalItems` / `totalAmount` from it. -/
def recalc (cart : Cart) (items : List CartItem) : Cart :=
  { cart with
      items := items
      totalItems := itemsTotalQuantity items
      totalAmount := itemsTotalAmount items }

/-- Core of `CartRepository.addItem`: if a line with the same `productId`
exists (the first one, as `findIndex` would locate), its quantity is
increased by the added quantity; otherwise the item is pushed at the end. -/
def addItemToItems : List CartItem → CartItem → List CartItem
  | [], item => [item]
  | c :: rest, item =>
    if c.productId = item.productId then
      { c with quantity := c.quantity + item.quantity } :: rest
    else
      c :: addItemToItems rest item

/-- Model of `CartRepository.addItem` on a cart value (the cart has already
been found by id). -/
def addItem (cart : Cart) (item : CartItem) : Cart :=
  recalc cart (addItemToItems cart.items item)

/-- Removal of the line at the first index whose `productId` matches, as the
code's `cart.items.splice(itemIndex, 1)`. -/
def removeFirstItem : List CartItem → String → List CartItem
  | [], _ => []
  | c :: rest, productId =>
    if c.productId = productId then rest else c :: removeFirstItem rest productId

/-- Overwrite of the quantity of the line at the first matching index, as the
code's `cart.items[itemIndex].quantity = quantity`. -/
def setFirstItemQuantity : List CartItem → String → Int → List CartItem
  | [], _, _ => []
  | c :: rest, productId, quantity =>
    if c.productId = productId then
      { c with quantity := quantity } :: rest
    else
      c :: setFirstItemQuantity rest productId quantity

/-- Model of `CartRepository.updateItemQuantity`: `none` when no line has the
given product id (`findIndex` returns `-1`); otherwise the line is removed
when `quantity <= 0`, or its quantity overwritten, and totals recomputed. -/
def updateItemQuantity (cart : Cart) (productId : String) (quantity : Int) :
    Option Cart :=
  if cart.items.any (fun it => it.productId == productId) then
    if quantity ≤ 0 then
      some (recalc cart (removeFirstItem cart.items productId))
    else
      some (recalc cart (setFirstItemQuantity cart.items productId quantity))
  else
    none

/-- Model of `CartRepository.removeItem`: keep the lines whose product id
differs, then recompute totals. -/
def removeItem (cart : Cart) (productId : String) : Cart :=
  recalc cart (cart.items.filter (fun it => it.productId != productId))

/-- Model of `CartRepository.clearCart`. -/
def clearCart (cart : Cart) : Cart :=
  { cart with items := [], totalItems := 0, totalAmount := 0 }

/-- Item merge loop of `CartRepository.mergeGuestCart`: each guest item is
folded into the user item list exactly as `addItem` folds a single item. -/
def mergeItems (userItems : List CartItem) (guestItems : List CartItem) :
    List CartItem :=
  guestItems.foldl addItemToItems userItems

/-- Both documents touched by `mergeGuestCart`: the resulting user cart and
the guest cart as it is left after the operation. -/
structure MergeOutcome where
  userCart : Cart
  guestCartAfter : Cart
  deriving Repr, DecidableEq

/-- Model of `CartRepository.mergeGuestCart`. When the user has no active
cart the guest cart merely receives the `userId` (same document, so both
components coincide); otherwise guest items are merged into the user cart,
totals recomputed and the guest cart deactivated. -/
def mergeGuestCart (guestCart : Cart) (existingUserCart : Option Cart)
    (userId : String) : MergeOutcome :=
  match existingUserCart with
  | none =>
    let rekeyed := { guestCart with userId := some userId }
    { userCart := rekeyed, guestCartAfter := rekeyed }
  | some userCart =>
    let merged := recalc userCart (mergeItems userCart.items guestCart.items)
    { userCart := merged, guestCartAfter := { guestCart with isActive := false } }

end CartRepository

/-- Consistency of the cached totals with the line items: the invariant the
specification states for every cart after every mutation. -/
def cartConsistent (c : Cart) : Prop :=
  c.totalItems = (c.items.map (fun it => it.quantity)).sum ∧
  c.totalAmount = (c.items.map (fun it => it.price * it.quantity)).sum

instance (c : Cart) : Decidable (cartConsistent c) := by
  unfold cartConsistent; infer_instance

/-- Total quantity carried by a given product id across a list of items. -/
def pidQuantity (p : String) (items : List CartItem) : Int :=
  (items.map (fun it => if it.productId = p then it.quantity else 0)).sum

/-- Product ids of the lines, in order. -/
def pids (items : List CartItem) : List String :=
  items.map (fun it => it.productId)

lemma foldl_add_eq_sum (f : CartItem → Int) :
    ∀ (l : List CartItem) (a : Int),
      l.foldl (fun t it => t + f it) a = a + (l.map f).sum := by
  intro l
  induction l with
  | nil => intro a; simp
  | cons x xs ih =>
    intro a
    simp only [List.foldl_cons, List.map_cons, List.sum_cons]
    rw [ih]
    ring

lemma itemsTotalQuantity_eq (l : List CartItem) :
    itemsTotalQuantity l = (l.map (fun it => it.quantity)).sum := by
  unfold itemsTotalQuantity
  simpa using foldl_add_eq_sum (fun it => it.quantity) l 0

lemma itemsTotalAmount_eq (l : List CartItem) :
    itemsTotalAmount l = (l.map (fun it => it.price * it.quantity)).sum := by
  unfold itemsTotalAmount
  simpa using foldl_add_eq_sum (fun it => it.price * it.quantity) l 0

lemma cartConsistent_recalc (cart : Cart) (items : List CartItem) :
    cartConsistent (CartRepository.recalc cart items) := by
  constructor
  · simpa [CartRepository.recalc] using itemsTotalQuantity_eq items
  · simpa [CartRepository.recalc] using itemsTotalAmount_eq items

lemma pidQuantity_addItemToItems (p : String) (items : List CartItem)
    (item : CartItem) :
    pidQuantity p (CartRepository.addItemToItems items item)
      = pidQuantity p items
        + (if item.productId = p then item.quantity else 0) := by
  induction items with
  | nil => simp [CartRepository.addItemToItems, pidQuantity]
  | cons x xs ih =>
    simp only [CartRepository.addItemToItems]
    by_cases hx : x.productId = item.productId
    · simp only [if_pos hx, pidQuantity, List.map_cons, List.sum_cons]
      by_cases hp : x.productId = p
      · have hip : item.productId = p := hx.symm.trans hp
        simp only [if_pos hp, if_pos hip]
        ring
      · have hip : ¬ item.productId = p := fun h => hp (hx.trans h)
        simp only [if_neg hp, if_neg hip]
        ring
    · simp only [if_neg hx, pidQuantity, List.map_cons, List.sum_cons]
      simp only [pidQuantity] at ih
      rw [ih]
      ring

lemma pids_addItemToItems_of_mem (items : List CartItem) (item : CartItem)
    (h : item.productId ∈ pids items) :
    pids (CartRepository.addItemToItems items item) = pids items := by
  induction items with
  | nil => simp [pids] at h
  | cons x xs ih =>
    by_cases hx : x.productId = item.productId
    · simp [CartRepository.addItemToItems, if_pos hx, pids]
    · have hmem : item.productId ∈ pids xs := by
        simp only [pids, List.map_cons, List.mem_cons] at h
        exact h.resolve_left (fun hh => hx hh.symm)
      have ihx := ih hmem
      simp only [pids] at ihx
      simp [CartRepository.addItemToItems, if_neg hx, pids, ihx]

lemma length_addItemToItems_of_mem (items : List CartItem) (item : CartItem)
    (h : item.productId ∈ pids items) :
    (CartRepository.addItemToItems items item).length = items.length := by
  have := pids_addItemToItems_of_mem items item h
  have hlen := congrArg List.length this
  simpa [pids] using hlen

lemma mem_pids_addItemToItems (p : String) (items : List CartItem)
    (item : CartItem) :
    p ∈ pids (CartRepository.addItemToItems items item)
      ↔ p ∈ pids items ∨ p = item.productId := by
  induction items with
  | nil => simp [CartRepository.addItemToItems, pids, eq_comm]
  | cons x xs ih =>
    by_cases hx : x.productId = item.productId
    · simp only [CartRepository.addItemToItems, if_pos hx, pids,
        List.map_cons, List.mem_cons]
      constructor
      · intro h
        rcases h with h | h
        · exact Or.inl (Or.inl h)
        · exact Or.inl (Or.inr h)
      · intro h
        rcases h with (h | h) | h
        · exact Or.inl h
        · exact Or.inr h
        · exact Or.inl (h.trans hx.symm)
    · simp only [CartRepository.addItemToItems, if_neg hx, pids,
        List.map_cons, List.mem_cons]
      unfold pids at ih
      rw [ih]
      tauto

lemma pidQuantity_mergeItems (p : String) (userItems guestItems : List CartItem) :
    pidQuantity p (CartRepository.mergeItems userItems guestItems)
      = pidQuantity p userItems + pidQuantity p guestItems := by
  induction guestItems generalizing userItems with
  | nil => simp [CartRepository.mergeItems, pidQuantity]
  | cons g gs ih =>
    simp only [CartRepository.mergeItems, List.foldl_cons]
    have := ih (CartRepository.addItemToItems userItems g)
    unfold CartRepository.mergeItems at this
    rw [this, pidQuantity_addItemToItems]
    simp only [pidQuantity, List.map_cons, List.sum_cons]
    ring

lemma mem_pids_mergeItems (p : String) (userItems guestItems : List CartItem) :
    p ∈ pids (CartRepository.mergeItems userItems guestItems)
      ↔ p ∈ pids userItems ∨ p ∈ pids guestItems := by
  induction guestItems generalizing userItems with
  | nil => simp [CartRepository.mergeItems, pids]
  | cons g gs ih =>
    simp only [CartRepository.mergeItems, List.foldl_cons]
    have := ih (CartRepository.addItemToItems userItems g)
    unfold CartRepository.mergeItems at this
    rw [this, mem_pids_addItemToItems]
    simp only [pids, List.map_cons, List.mem_cons]
    tauto

lemma removeFirstItem_eq_filter (items : List CartItem) (p : String)
    (h : (pids items).Nodup) :
    CartRepository.removeFirstItem items p
      = items.filter (fun it => it.productId != p) := by
  induction items with
  | nil => simp [CartRepository.removeFirstItem]
  | cons x xs ih =>
    simp only [pids, List.map_cons, List.nodup_cons] at h
    by_cases hx : x.productId = p
    · have hxs : ∀ it ∈ xs, it.productId ≠ p := by
        intro it hit hc
        exact h.1 (List.mem_map.mpr ⟨it, hit, hc.trans hx.symm⟩)
      have : xs.filter (fun it => it.productId != p) = xs := by
        apply List.filter_eq_self.mpr
        intro it hit
        simpa using hxs it hit
      simp [CartRepository.removeFirstItem, if_pos hx, List.filter_cons, hx, this]
    · have := ih h.2
      simp [CartRepository.removeFirstItem, if_neg hx, List.filter_cons, hx, this]

/-- Catalog product, restricted to the fields the cart/order paths read. -/
structure Product where
  id : String
  title : String
  price : Int
  stock : Int
  thumbnail : String
  deriving Repr, DecidableEq

namespace CartController

/-- Model of `CartController.removeFromCart` once the cart handle has been
obtained by `getOrCreateCart` (which always yields a cart): a missing
product id is rejected with 400, otherwise the repository removal runs and
the endpoint answers 200 with the updated cart. -/
def removeFromCart (cart : Cart) (productId : Option String) : Nat × Cart :=
  match productId with
  | none => (400, cart)
  | some pid => (200, CartRepository.removeItem cart pid)

/-- Model of `CartController.updateCartItem`: quantities that are zero,
negative (or absent) are rejected with 400 before any repository call; then
the product must exist (404) and have sufficient stock (400); finally the
repository update runs, `none` mapping to 404. -/
def updateCartItem (catalog : String → Option Product) (cart : Cart)
    (productId : Option String) (quantity : Int) : Nat × Cart :=
  match productId with
  | none => (400, cart)
  | some pid =>
    if quantity ≤ 0 then (400, cart)
    else
      match catalog pid with
      | none => (404, cart)
      | some p =>
        if p.stock < quantity then (400, cart)
        else
          match CartRepository.updateItemQuantity cart pid quantity with
          | none => (404, cart)
          | some c => (200, c)

end CartController

/-- Payment status axis of an order. -/
inductive PaymentStatus where
  | PENDING
  | PAID
  deriving Repr, DecidableEq

/-- Fulfillment status axis of an order. -/
inductive OrderStatus where
  | PENDING
  | CONFIRMED
  | SHIPPED
  | DELIVERED
  | CANCELLED
  deriving Repr, DecidableEq

/-- Line item of an order, snapshotted from the catalog at checkout time. -/
structure OrderItem where
  productId : String
  title : String
  price : Int
  quantity : Int
  thumbnail : String
  deriving Repr, DecidableEq

/-- Order document, mirroring the `Order` interface of the Order model. -/
structure Order where
  id : String
  userId : String
  items : List OrderItem
  totalAmount : Int
  totalItems : Int
  paymentMethod : String
  paymentStatus : PaymentStatus
  orderStatus : OrderStatus
  sessionId : Option String
  transactionId : Option String
  orderNumber : String
  isActive : Bool
  deriving Repr, DecidableEq

/-- Amount accumulated over order items during the checkout loop. -/
def orderItemsAmount (l : List OrderItem) : Int :=
  (l.map (fun it => it.price * it.quantity)).sum

/-- Quantity accumulated over order items during the checkout loop. -/
def orderItemsCount (l : List OrderItem) : Int :=
  (l.map (fun it => it.quantity)).sum

namespace OrderController

/-- Validation loop of `OrderController.createOrder` over the cart lines:
each line needs an existing catalog product with stock at least the
requested quantity, and on success the snapshotted order items are built in
order; the first failing line aborts the whole loop (`none`). -/
def buildOrderItems (catalog : String → Option Product) :
    List CartItem → Option (List OrderItem)
  | [] => some []
  | ci :: rest =>
    match catalog ci.productId with
    | none => none
    | some p =>
      if p.stock < ci.quantity then none
      else
        match buildOrderItems catalog rest with
        | none => none
        | some os =>
          some ({ productId := p.id, title := p.title, price := p.price,
                  quantity := ci.quantity, thumbnail := p.thumbnail } :: os)

/-- Outcome of `createOrder`: the HTTP status, the order documents persisted
by the operation (empty when nothing was written), and whether the cart was
cleared. -/
structure CheckoutResult where
  status : Nat
  persisted : List Order
  cartCleared : Bool
  deriving Repr, DecidableEq

/-- Model of `OrderController.createOrder`. Inputs: the catalog, the
caller's active cart as found by `findByUserId`, request fields, the
outcome of Stripe checkout-session creation for `ONLINE` payments (`none`
models the gateway call throwing), and the identifiers the database
generates for the new order. -/
def createOrder (catalog : String → Option Product) (cart : Option Cart)
    (userId : String) (hasShippingAddress : Bool) (paymentMethod : String)
    (hasSuccessUrl : Bool) (hasCancelUrl : Bool)
    (gatewaySession : Option String) (newOrderId : String)
    (newOrderNumber : String) : CheckoutResult :=
  if hasShippingAddress = false ∨ paymentMethod = "" then
    { status := 400, persisted := [], cartCleared := false }
  else if ¬ (paymentMethod = "ONLINE" ∨ paymentMethod = "COD") then
    { status := 400, persisted := [], cartCleared := false }
  else if paymentMethod = "ONLINE" ∧ ¬ (hasSuccessUrl ∧ hasCancelUrl) then
    { status := 400, persisted := [], cartCleared := false }
  else
    match cart with
    | none => { status := 400, persisted := [], cartCleared := false }
    | some c =>
      if c.items.isEmpty then
        { status := 400, persisted := [], cartCleared := false }
      else
        match buildOrderItems catalog c.items with
        | none => { status := 400, persisted := [], cartCleared := false }
        | some orderItems =>
          let o : Order :=
            { id := newOrderId
              userId := userId
              items := orderItems
              totalAmount := orderItemsAmount orderItems
              totalItems := orderItemsCount orderItems
              paymentMethod := paymentMethod
              paymentStatus := PaymentStatus.PENDING
              orderStatus := OrderStatus.PENDING
              sessionId := none
              transactionId := none
              orderNumber := newOrderNumber
              isActive := true }
          if paymentMethod = "ONLINE" then
            match gatewaySession with
            | none =>
              { status := 500, persisted := [{ o with isActive := false }],
                cartCleared := false }
            | some sid =>
              { status := 201, persisted := [{ o with sessionId := some sid }],
                cartCleared := true }
          else
            { status := 201, persisted := [o], cartCleared := true }

/-- Model of `OrderController.cancelOrder` after authentication, applied to
the looked-up order (`none` models an unknown id): ownership is checked,
then cancellation is refused with 400 while the order is `SHIPPED` or
`DELIVERED`, otherwise the status is set to `CANCELLED` (a refund attempt
for paid orders does not change the stored order either way). -/
def cancelOrder (order : Option Order) (userId : String) : Nat × Option Order :=
  match order with
  | none => (404, none)
  | some o =>
    if o.userId ≠ userId then (403, some o)
    else if o.orderStatus = OrderStatus.SHIPPED ∨ o.orderStatus = OrderStatus.DELIVERED then
      (400, some o)
    else
      (200, some { o with orderStatus := OrderStatus.CANCELLED })

/-- Parse of the `status` body field against the controller's
`validStatuses` list. -/
def parseOrderStatus (s : String) : Option OrderStatus :=
  if s = "PENDING" then some OrderStatus.PENDING
  else if s = "CONFIRMED" then some OrderStatus.CONFIRMED
  else if s = "SHIPPED" then some OrderStatus.SHIPPED
  else if s = "DELIVERED" then some OrderStatus.DELIVERED
  else if s = "CANCELLED" then some OrderStatus.CANCELLED
  else none

/-- Model of the admin `OrderController.updateOrderStatus`: a missing or
invalid status is rejected with 400, an unknown order with 404; otherwise
the repository overwrites `orderStatus` with the requested value with no
check of the current status. -/
def updateOrderStatus (order : Option Order) (status : String) :
    Nat × Option Order :=
  if status = "" then (400, order)
  else
    match parseOrderStatus status with
    | none => (400, order)
    | some s =>
      match order with
      | none => (404, none)
      | some o => (200, some { o with orderStatus := s })

end OrderController

namespace OrderRepository

/-- Model of `OrderRepository.findByOrderNumber`: first active order with
the given order number. -/
def findByOrderNumber (orders : List Order) (orderNumber : String) :
    Option Order :=
  orders.find? (fun o => o.orderNumber == orderNumber && o.isActive)

/-- Model of `OrderRepository.updatePaymentStatus`: overwrite the payment
status of the order with the given id, also recording the transaction id
when one is supplied. -/
def updatePaymentStatus (orders : List Order) (orderId : String)
    (status : PaymentStatus) (transactionId : Option String) : List Order :=
  orders.map (fun o =>
    if o.id = orderId then
      { o with
          paymentStatus := status
          transactionId :=
            match transactionId with
            | some t => some t
            | none => o.transactionId }
    else o)

end OrderRepository

/-- Authoritative session state as re-fetched from the payment gateway. -/
structure StripeSessionState where
  payment_status : String
  deriving Repr, DecidableEq

/-- Fields of the inbound checkout-session-completed webhook payload that
the handler touches, plus the payload's own claimed payment status, which
the handler never reads. -/
structure WebhookPayload where
  id : Option String
  orderNum : Option String
  payment_status : String
  deriving Repr, DecidableEq

/-- Result reported by the webhook event processing. -/
structure WebhookResult where
  processed : Bool
  message : String
  deriving Repr, DecidableEq

namespace StripeWebhookController

/-- Model of `StripeWebhookController.handleCheckoutSessionCompleted`.
`retrieve` is the gateway's session-retrieval call (`none` models the call
throwing). The handler requires the payload's session id and order number,
re-fetches the session from the gateway, looks the order up by order
number, and maps the retrieved `payment_status` of `paid` to `PAID` and
anything else to `PENDING`. -/
def handleCheckoutSessionCompleted
    (retrieve : String → Option StripeSessionState) (orders : List Order)
    (payload : WebhookPayload) : WebhookResult × List Order :=
  match payload.id, payload.orderNum with
  | some sessionId, some orderNum =>
    (match retrieve sessionId with
     | none =>
       ({ processed := false,
          message := "Failed to retrieve session from Stripe" }, orders)
     | some s =>
       match OrderRepository.findByOrderNumber orders orderNum with
       | none =>
         ({ processed := false, message := "Order not found: " ++ orderNum },
          orders)
       | some o =>
         let paymentStatus :=
           if s.payment_status = "paid" then PaymentStatus.PAID
           else PaymentStatus.PENDING
         ({ processed := true,
            message := "Checkout processed for order " ++ o.orderNumber },
          OrderRepository.updatePaymentStatus orders o.id paymentStatus
            (some sessionId)))
  | _, _ =>
    ({ processed := false, message := "Missing session ID or order ID" },
     orders)

/-- Model of `StripeWebhookController.processWebhookEvent`: only the
checkout-session-completed event type is handled; everything else is
reported unprocessed. -/
def processWebhookEvent (retrieve : String → Option StripeSessionState)
    (orders : List Order) (eventType : String) (payload : WebhookPayload) :
    WebhookResult × List Order :=
  if eventType = "checkout.session.completed" then
    handleCheckoutSessionCompleted retrieve orders payload
  else
    ({ processed := false, message := "Unhandled event type: " ++ eventType },
     orders)

/-- Model of `StripeWebhookController.handleWebhook` after signature
handling: the event is processed and the endpoint answers 200 whether or
not the event was processed. -/
def handleWebhook (retrieve : String → Option StripeSessionState)
    (orders : List Order) (eventType : String) (payload : WebhookPayload) :
    Nat × WebhookResult × List Order :=
  let r := processWebhookEvent retrieve orders eventType payload
  (200, r)

end StripeWebhookController

/-- Status of a support ticket. -/
inductive TicketStatus where
  | OPEN
  | IN_PROGRESS
  | WAITING_CUSTOMER
  | RESOLVED
  | CLOSED
  deriving Repr, DecidableEq

/-- Role of the user sending a ticket message. -/
inductive UserRole where
  | USER
  | ADMIN
  | SUPER_ADMIN
  deriving Repr, DecidableEq

/-- Message of a ticket thread. -/
structure TicketMessage where
  sender : String
  senderRole : UserRole
  message : String
  createdAt : Nat
  deriving Repr, DecidableEq

/-- Ticket document, restricted to the fields the message path touches. -/
structure Ticket where
  ticketId : String
  user : String
  status : TicketStatus
  messages : List TicketMessage
  lastResponseAt : Option Nat
  deriving Repr, DecidableEq

namespace TicketRepository

/-- Model of `TicketRepository.addMessage`: push the message onto the
thread and set `lastResponseAt` to the message's timestamp. -/
def addMessage (t : Ticket) (m : TicketMessage) : Ticket :=
  { t with messages := t.messages ++ [m], lastResponseAt := some m.createdAt }

/-- Model of `TicketRepository.updateStatus`. -/
def updateStatus (t : Ticket) (s : TicketStatus) : Ticket :=
  { t with status := s }

end TicketRepository

namespace TicketController

/-- Model of the user-route `TicketController.addMessage` after
authentication: an empty message is rejected with 400, an unknown ticket
with 404, a non-owner with 403; otherwise the message is appended with
sender role `USER` and the status is set to `OPEN` when it was
`WAITING_CUSTOMER`, else rewritten unchanged. -/
def addMessage (ticket : Option Ticket) (userId : String) (message : String)
    (now : Nat) : Nat × Option Ticket :=
  if message = "" then (400, ticket)
  else
    match ticket with
    | none => (404, none)
    | some t =>
      if t.user ≠ userId then (403, some t)
      else
        let t1 := TicketRepository.addMessage t
          { sender := userId, senderRole := UserRole.USER, message := message,
            createdAt := now }
        let newStatus :=
          if t.status = TicketStatus.WAITING_CUSTOMER then TicketStatus.OPEN
          else t.status
        (200, some (TicketRepository.updateStatus t1 newStatus))

end TicketController

lemma buildOrderItems_eq_none_of_bad (catalog : String → Option Product)
    (l : List CartItem) (ci : CartItem) (hci : ci ∈ l)
    (hbad : catalog ci.productId = none ∨
      ∃ p, catalog ci.productId = some p ∧ p.stock < ci.quantity) :
    OrderController.buildOrderItems catalog l = none := by
  induction l with
  | nil => cases hci
  | cons x xs ih =>
    rcases List.mem_cons.mp hci with hx | hx
    · subst hx
      rcases hbad with hnone | ⟨p, hp, hs⟩
      · simp [OrderController.buildOrderItems, hnone]
      · simp [OrderController.buildOrderItems, hp, if_pos hs]
    · have hrest := ih hx
      unfold OrderController.buildOrderItems
      cases hcx : catalog x.productId with
      | none => rfl
      | some p =>
        by_cases hs : p.stock < x.quantity
        · simp [if_pos hs]
        · simp [if_neg hs, hrest]

lemma buildOrderItems_ok (catalog : String → Option Product)
    (l : List CartItem) (os : List OrderItem)
    (h : OrderController.buildOrderItems catalog l = some os) :
    ∀ ci ∈ l, ∃ p, catalog ci.productId = some p ∧ ¬ p.stock < ci.quantity := by
  induction l generalizing os with
  | nil => intro ci hci; cases hci
  | cons x xs ih =>
    intro ci hci
    unfold OrderController.buildOrderItems at h
    cases hcx : catalog x.productId with
    | none => rw [hcx] at h; cases h
    | some p =>
      rw [hcx] at h
      dsimp only at h
      by_cases hs : p.stock < x.quantity
      · rw [if_pos hs] at h; cases h
      · rw [if_neg hs] at h
        cases hrest : OrderController.buildOrderItems catalog xs with
        | none => rw [hrest] at h; cases h
        | some os2 =>
          rw [hrest] at h
          rcases List.mem_cons.mp hci with hhead | hmem
          · subst hhead; exact ⟨p, hcx, hs⟩
          · exact ih os2 hrest ci hmem

lemma createOrder_eq_400_of_bad (catalog : String → Option Product)
    (c : Cart) (userId : String) (hasShip : Bool) (pm : String)
    (hsu hcu : Bool) (gw : Option String) (oid onum : String)
    (hbuild : OrderController.buildOrderItems catalog c.items = none) :
    OrderController.createOrder catalog (some c) userId hasShip pm hsu hcu gw
        oid onum
      = { status := 400, persisted := [], cartCleared := false } := by
  unfold OrderController.createOrder
  split
  · rfl
  · split
    · rfl
    · split
      · rfl
      · cases hempty : c.items.isEmpty
        · simp [hempty, hbuild]
        · simp [hempty]

/-- Concrete line item used by the witnesses: product p1, price 10,
quantity 2. -/
def sampleItemA : CartItem :=
  { productId := "p1", title := "A", price := 10, quantity := 2,
    thumbnail := "t", addedAt := 0 }

/-- Concrete line item used by the witnesses: product p2, price 5,
quantity 1. -/
def sampleItemB : CartItem :=
  { productId := "p2", title := "B", price := 5, quantity := 1,
    thumbnail := "t", addedAt := 0 }

/-- Concrete cart with one line and deliberately stale cached totals. -/
def sampleStaleCart : Cart :=
  { userId := none, items := [sampleItemA], totalAmount := 99,
    totalItems := 99, isActive := true }

/-- Concrete consistent cart with the two sample lines. -/
def sampleCartAB : Cart :=
  { userId := none, items := [sampleItemA, sampleItemB], totalAmount := 25,
    totalItems := 3, isActive := true }

/-- C1: for every cart — empty or not — and every mutation, the resulting
cart's `totalItems` equals the sum of the line-item quantities and its
`totalAmount` equals the sum of price times quantity over the line items:
unconditionally for add-item (any item), remove-item (any product id,
present or absent) and clear, and for every cart a quantity update returns. -/
theorem spec_C1_cart_totals_consistent (cart : Cart) (item : CartItem)
    (productId : String) (quantity : Int) :
    cartConsistent (CartRepository.addItem cart item) ∧
    (∀ c2, CartRepository.updateItemQuantity cart productId quantity = some c2 →
      cartConsistent c2) ∧
    cartConsistent (CartRepository.removeItem cart productId) ∧
    cartConsistent (CartRepository.clearCart cart) := by
  refine ⟨cartConsistent_recalc _ _, ?_, cartConsistent_recalc _ _, ?_⟩
  · intro c2 hupd
    unfold CartRepository.updateItemQuantity at hupd
    split at hupd
    · split at hupd
      · cases hupd; exact cartConsistent_recalc _ _
      · cases hupd; exact cartConsistent_recalc _ _
    · cases hupd
  · constructor <;> simp [CartRepository.clearCart]

/-- Witness for C1 at a concrete cart whose cached totals are stale, showing
the mutations recompute them; the quantity-update conjunct is discharged at
the concrete cart the update returns. -/
theorem spec_C1_cart_totals_consistent_witness :
    cartConsistent (CartRepository.addItem sampleStaleCart sampleItemB) ∧
    cartConsistent
      { userId := none
        items := [{ sampleItemA with quantity := 4 }]
        totalAmount := 40, totalItems := 4, isActive := true } ∧
    cartConsistent (CartRepository.removeItem sampleStaleCart "p1") ∧
    cartConsistent (CartRepository.clearCart sampleStaleCart) :=
  have h := spec_C1_cart_totals_consistent sampleStaleCart sampleItemB "p1" 4
  ⟨h.1,
   h.2.1
     { userId := none
       items := [{ sampleItemA with quantity := 4 }]
       totalAmount := 40, totalItems := 4, isActive := true }
     (by decide),
   h.2.2.1, h.2.2.2⟩

/-- C8: adding a product already present in a cart leaves the number of
lines and the sequence of product ids unchanged (no duplicate line), and
increases the quantity carried by that product id by the added quantity. -/
theorem spec_C8_add_existing_product (cart : Cart) (item : CartItem)
    (hmem : item.productId ∈ pids cart.items) :
    (CartRepository.addItem cart item).items.length = cart.items.length ∧
    pids (CartRepository.addItem cart item).items = pids cart.items ∧
    pidQuantity item.productId (CartRepository.addItem cart item).items
      = pidQuantity item.productId cart.items + item.quantity := by
  have hitems : (CartRepository.addItem cart item).items
      = CartRepository.addItemToItems cart.items item := rfl
  rw [hitems]
  refine ⟨length_addItemToItems_of_mem _ _ hmem,
    pids_addItemToItems_of_mem _ _ hmem, ?_⟩
  have h := pidQuantity_addItemToItems item.productId cart.items item
  simpa using h

/-- Witness for C8 at a concrete two-line cart, adding three more units of
product p2. -/
theorem spec_C8_add_existing_product_witness :
    (CartRepository.addItem sampleCartAB
        { sampleItemB with quantity := 3 }).items.length
      = sampleCartAB.items.length ∧
    pids (CartRepository.addItem sampleCartAB
        { sampleItemB with quantity := 3 }).items
      = pids sampleCartAB.items ∧
    pidQuantity "p2" (CartRepository.addItem sampleCartAB
        { sampleItemB with quantity := 3 }).items
      = pidQuantity "p2" sampleCartAB.items + 3 :=
  spec_C8_add_existing_product sampleCartAB { sampleItemB with quantity := 3 }
    (by decide)

/-- C7: for every cart that contains the product (with no duplicate lines,
as the cart operations maintain), a quantity update to 0 or less removes
that product's line entirely — the update coincides with `removeItem`, the
resulting cart has no line for the product, and its totals are recomputed
consistently. -/
theorem spec_C7_update_nonpositive_removes_line (cart : Cart)
    (productId : String) (quantity : Int)
    (hnodup : (pids cart.items).Nodup)
    (hmem : productId ∈ pids cart.items)
    (hq : quantity ≤ 0) :
    CartRepository.updateItemQuantity cart productId quantity
      = some (CartRepository.removeItem cart productId) ∧
    (∀ it ∈ (CartRepository.removeItem cart productId).items,
      it.productId ≠ productId) ∧
    cartConsistent (CartRepository.removeItem cart productId) := by
  refine ⟨?_, ?_, cartConsistent_recalc _ _⟩
  · have hany : cart.items.any (fun it => it.productId == productId) = true := by
      rw [List.any_eq_true]
      obtain ⟨it, hit, hip⟩ := List.mem_map.mp hmem
      exact ⟨it, hit, by simpa using hip⟩
    unfold CartRepository.updateItemQuantity CartRepository.removeItem
    rw [if_pos hany, if_pos hq, removeFirstItem_eq_filter cart.items productId hnodup]
  · intro it hit
    have hfilter : it ∈ cart.items.filter (fun x => x.productId != productId) := by
      simpa [CartRepository.removeItem, CartRepository.recalc] using hit
    have := List.of_mem_filter hfilter
    simpa using this

/-- Witness for C7: setting product p2's quantity to 0 in the two-line
sample cart removes that line. -/
theorem spec_C7_update_nonpositive_removes_line_witness :
    CartRepository.updateItemQuantity sampleCartAB "p2" 0
      = some (CartRepository.removeItem sampleCartAB "p2") ∧
    (∀ it ∈ (CartRepository.removeItem sampleCartAB "p2").items,
      it.productId ≠ "p2") ∧
    cartConsistent (CartRepository.removeItem sampleCartAB "p2") :=
  spec_C7_update_nonpositive_removes_line sampleCartAB "p2" 0
    (by decide) (by decide) (by decide)

/-- C10: removing a product that is not in the cart is accepted at the
public interface — the endpoint answers 200 and (for a cart whose cached
totals are consistent, as maintained) the cart is returned unchanged. -/
theorem spec_C10_remove_absent_product_identity (cart : Cart)
    (productId : String)
    (habs : productId ∉ pids cart.items)
    (hcons : cartConsistent cart) :
    CartController.removeFromCart cart (some productId) = (200, cart) := by
  have hfilter : cart.items.filter (fun it => it.productId != productId)
      = cart.items := by
    apply List.filter_eq_self.mpr
    intro it hit
    have hne : it.productId ≠ productId := by
      intro h
      exact habs (h ▸ List.mem_map.mpr ⟨it, hit, rfl⟩)
    simpa using hne
  have hrecalc : CartRepository.removeItem cart productId = cart := by
    unfold CartRepository.removeItem CartRepository.recalc
    rw [hfilter, itemsTotalQuantity_eq, itemsTotalAmount_eq,
      ← hcons.1, ← hcons.2]
  unfold CartController.removeFromCart
  dsimp only
  rw [hrecalc]

/-- Witness for C10: removing absent product p9 from the consistent sample
cart answers 200 with the cart unchanged. -/
theorem spec_C10_remove_absent_product_identity_witness :
    CartController.removeFromCart sampleCartAB (some "p9")
      = (200, sampleCartAB) :=
  spec_C10_remove_absent_product_identity sampleCartAB "p9"
    (by decide) (by decide)

/-- C4: merging a guest cart when the user has no active cart merely
re-keys the guest cart to the user id; merging into an existing user cart
unions the line items by product id with quantities summed, recomputes the
totals, and deactivates the guest cart. -/
theorem spec_C4_merge_guest_cart (guestCart userCart : Cart)
    (userId : String) :
    ((CartRepository.mergeGuestCart guestCart none userId).userCart
        = { guestCart with userId := some userId } ∧
     (CartRepository.mergeGuestCart guestCart none userId).guestCartAfter
        = { guestCart with userId := some userId }) ∧
    ((∀ p, pidQuantity p
        (CartRepository.mergeGuestCart guestCart (some userCart) userId).userCart.items
          = pidQuantity p userCart.items + pidQuantity p guestCart.items) ∧
     (∀ p, p ∈ pids
        (CartRepository.mergeGuestCart guestCart (some userCart) userId).userCart.items
          ↔ p ∈ pids userCart.items ∨ p ∈ pids guestCart.items) ∧
     cartConsistent
       (CartRepository.mergeGuestCart guestCart (some userCart) userId).userCart ∧
     (CartRepository.mergeGuestCart guestCart (some userCart) userId).guestCartAfter.isActive
       = false) := by
  refine ⟨⟨rfl, rfl⟩, ?_, ?_, cartConsistent_recalc _ _, rfl⟩
  · intro p
    exact pidQuantity_mergeItems p userCart.items guestCart.items
  · intro p
    exact mem_pids_mergeItems p userCart.items guestCart.items

/-- C2: checkout over a non-empty cart containing a line whose product is
missing from the catalog or whose requested quantity exceeds the catalog
stock answers 400 and persists no order; and whenever an order is
persisted, every cart line passed the catalog/stock check. -/
theorem spec_C2_checkout_atomic_stock_check
    (catalog : String → Option Product) (c : Cart) (userId : String)
    (hasShip : Bool) (pm : String) (hsu hcu : Bool) (gw : Option String)
    (oid onum : String) (ci : CartItem)
    (hci : ci ∈ c.items)
    (hbad : catalog ci.productId = none ∨
      ∃ p, catalog ci.productId = some p ∧ p.stock < ci.quantity) :
    ((OrderController.createOrder catalog (some c) userId hasShip pm hsu hcu
        gw oid onum).status = 400 ∧
     (OrderController.createOrder catalog (some c) userId hasShip pm hsu hcu
        gw oid onum).persisted = []) ∧
    (∀ (catalog2 : String → Option Product) (c2 : Cart) (userId2 : String)
       (hasShip2 : Bool) (pm2 : String) (hsu2 hcu2 : Bool)
       (gw2 : Option String) (oid2 onum2 : String) (o : Order),
      o ∈ (OrderController.createOrder catalog2 (some c2) userId2 hasShip2
        pm2 hsu2 hcu2 gw2 oid2 onum2).persisted →
      ∀ ci2 ∈ c2.items, ∃ p, catalog2 ci2.productId = some p ∧
        ¬ p.stock < ci2.quantity) := by
  constructor
  · have hbuild : OrderController.buildOrderItems catalog c.items = none :=
      buildOrderItems_eq_none_of_bad catalog c.items ci hci hbad
    rw [createOrder_eq_400_of_bad catalog c userId hasShip pm hsu hcu gw oid
      onum hbuild]
    exact ⟨rfl, rfl⟩
  · intro catalog2 c2 userId2 hasShip2 pm2 hsu2 hcu2 gw2 oid2 onum2 o ho
    intro ci2 hci2
    by_contra hfail
    have hbad2 : catalog2 ci2.productId = none ∨
        ∃ p, catalog2 ci2.productId = some p ∧ p.stock < ci2.quantity := by
      cases hc2 : catalog2 ci2.productId with
      | none => exact Or.inl rfl
      | some p =>
        refine Or.inr ⟨p, rfl, ?_⟩
        by_contra hns
        exact hfail ⟨p, hc2, hns⟩
    have hbuild2 : OrderController.buildOrderItems catalog2 c2.items = none :=
      buildOrderItems_eq_none_of_bad catalog2 c2.items ci2 hci2 hbad2
    rw [createOrder_eq_400_of_bad catalog2 c2 userId2 hasShip2 pm2 hsu2 hcu2
      gw2 oid2 onum2 hbuild2] at ho
    cases ho

/-- Concrete one-product catalog with three units of stock for p1 and
nothing else. -/
def sampleCatalog : String → Option Product := fun pid =>
  if pid = "p1" then
    some { id := "p1", title := "A", price := 10, stock := 3,
           thumbnail := "t" }
  else none

/-- Witness for C2: checking out the two-line sample cart against a catalog
that does not carry product p2 answers 400 and persists nothing. -/
theorem spec_C2_checkout_atomic_stock_check_witness :
    ((OrderController.createOrder sampleCatalog (some sampleCartAB) "u1" true
        "COD" false false none "o1" "ORD-1").status = 400 ∧
     (OrderController.createOrder sampleCatalog (some sampleCartAB) "u1" true
        "COD" false false none "o1" "ORD-1").persisted = []) ∧
    (∀ (catalog2 : String → Option Product) (c2 : Cart) (userId2 : String)
       (hasShip2 : Bool) (pm2 : String) (hsu2 hcu2 : Bool)
       (gw2 : Option String) (oid2 onum2 : String) (o : Order),
      o ∈ (OrderController.createOrder catalog2 (some c2) userId2 hasShip2
        pm2 hsu2 hcu2 gw2 oid2 onum2).persisted →
      ∀ ci2 ∈ c2.items, ∃ p, catalog2 ci2.productId = some p ∧
        ¬ p.stock < ci2.quantity) :=
  spec_C2_checkout_atomic_stock_check sampleCatalog sampleCartAB "u1" true
    "COD" false false none "o1" "ORD-1" sampleItemB
    (by decide) (Or.inl (by decide))

/-- Concrete order that has already been shipped. -/
def sampleShippedOrder : Order :=
  { id := "o1", userId := "u1", items := [], totalAmount := 0,
    totalItems := 0, paymentMethod := "COD",
    paymentStatus := PaymentStatus.PENDING,
    orderStatus := OrderStatus.SHIPPED, sessionId := none,
    transactionId := none, orderNumber := "ORD-1", isActive := true }

/-- C3: counterexample — the admin status-update endpoint accepts
`CANCELLED` for an order that is already `SHIPPED` and answers 200 with the
order moved to `CANCELLED`, so the claim that no operation can move a
shipped order to `CANCELLED` fails on the code. -/
theorem spec_C3_counterexample :
    sampleShippedOrder.orderStatus = OrderStatus.SHIPPED ∧
    OrderController.updateOrderStatus (some sampleShippedOrder) "CANCELLED"
      = (200, some { sampleShippedOrder with
          orderStatus := OrderStatus.CANCELLED }) := by
  constructor
  · rfl
  · rfl

/-- C3 (amended): the user-facing cancel operation never moves a `SHIPPED`
or `DELIVERED` order to `CANCELLED` — the stored order is left unchanged,
and for the owner the request is rejected with 400; the admin status-update
endpoint, however, overwrites the status unconditionally. -/
theorem spec_C3_user_cancel_blocked_when_shipped (o : Order) (userId : String)
    (hst : o.orderStatus = OrderStatus.SHIPPED ∨
           o.orderStatus = OrderStatus.DELIVERED) :
    (OrderController.cancelOrder (some o) userId).2 = some o ∧
    (o.userId = userId →
      OrderController.cancelOrder (some o) userId = (400, some o)) := by
  constructor
  · unfold OrderController.cancelOrder
    dsimp only
    by_cases hown : o.userId ≠ userId
    · rw [if_pos hown]
    · rw [if_neg hown, if_pos hst]
  · intro hown
    unfold OrderController.cancelOrder
    dsimp only
    rw [if_neg (fun h => h hown), if_pos hst]

/-- Witness for the amended C3: the owner's cancel request on the shipped
sample order is rejected with 400 and the order is unchanged. -/
theorem spec_C3_user_cancel_blocked_when_shipped_witness :
    (OrderController.cancelOrder (some sampleShippedOrder) "u1").2
      = some sampleShippedOrder ∧
    (sampleShippedOrder.userId = "u1" →
      OrderController.cancelOrder (some sampleShippedOrder) "u1"
        = (400, some sampleShippedOrder)) :=
  spec_C3_user_cancel_blocked_when_shipped sampleShippedOrder "u1"
    (Or.inl (by decide))

/-- Concrete pending online order awaiting its payment callback. -/
def samplePendingOrder : Order :=
  { id := "o2", userId := "u1", items := [], totalAmount := 25,
    totalItems := 3, paymentMethod := "ONLINE",
    paymentStatus := PaymentStatus.PENDING,
    orderStatus := OrderStatus.PENDING, sessionId := some "sess-1",
    transactionId := none, orderNumber := "ORD-2", isActive := true }

/-- Concrete webhook payload for the pending order, whose own
payment-status field deliberately lies. -/
def samplePayload : WebhookPayload :=
  { id := some "sess-1", orderNum := some "ORD-2",
    payment_status := "unpaid" }

/-- Concrete gateway retrieval: session sess-1 is paid. -/
def sampleRetrieve : String → Option StripeSessionState := fun sid =>
  if sid = "sess-1" then some { payment_status := "paid" } else none

/-- C5: when the checkout-session-completed handler finds the order, the
store update is exactly the repository payment-status update driven by the
gateway-retrieved session — `paid` maps to `PAID`, anything else to
`PENDING` — and the outcome is independent of the payload's own
payment-status field. -/
theorem spec_C5_webhook_maps_gateway_status
    (retrieve : String → Option StripeSessionState) (orders : List Order)
    (payload : WebhookPayload) (sid onum : String)
    (s : StripeSessionState) (o : Order)
    (hid : payload.id = some sid) (hnum : payload.orderNum = some onum)
    (hret : retrieve sid = some s)
    (hfind : OrderRepository.findByOrderNumber orders onum = some o) :
    StripeWebhookController.handleCheckoutSessionCompleted retrieve orders
        payload
      = ({ processed := true,
           message := "Checkout processed for order " ++ o.orderNumber },
         OrderRepository.updatePaymentStatus orders o.id
           (if s.payment_status = "paid" then PaymentStatus.PAID
            else PaymentStatus.PENDING) (some sid)) ∧
    (∀ o2 ∈ (StripeWebhookController.handleCheckoutSessionCompleted retrieve
        orders payload).2, o2.id = o.id →
      o2.paymentStatus = (if s.payment_status = "paid" then PaymentStatus.PAID
        else PaymentStatus.PENDING)) ∧
    (∀ alt : String,
      StripeWebhookController.handleCheckoutSessionCompleted retrieve orders
          { payload with payment_status := alt }
        = StripeWebhookController.handleCheckoutSessionCompleted retrieve
            orders payload) := by
  have hmain : StripeWebhookController.handleCheckoutSessionCompleted retrieve
      orders payload
    = ({ processed := true,
         message := "Checkout processed for order " ++ o.orderNumber },
       OrderRepository.updatePaymentStatus orders o.id
         (if s.payment_status = "paid" then PaymentStatus.PAID
          else PaymentStatus.PENDING) (some sid)) := by
    unfold StripeWebhookController.handleCheckoutSessionCompleted
    rw [hid, hnum]
    dsimp only
    rw [hret]
    dsimp only
    rw [hfind]
  refine ⟨hmain, ?_, ?_⟩
  · intro o2 ho2 hido2
    rw [hmain] at ho2
    dsimp only [OrderRepository.updatePaymentStatus] at ho2
    obtain ⟨x, hx, hfx⟩ := List.mem_map.mp ho2
    by_cases hxid : x.id = o.id
    · rw [if_pos hxid] at hfx
      rw [← hfx]
    · rw [if_neg hxid] at hfx
      exact absurd (hfx ▸ hido2) hxid
  · intro alt
    have hid2 : (({ payload with payment_status := alt } : WebhookPayload)).id
        = some sid := hid
    have hnum2 :
        (({ payload with payment_status := alt } : WebhookPayload)).orderNum
        = some onum := hnum
    have halt : StripeWebhookController.handleCheckoutSessionCompleted
        retrieve orders { payload with payment_status := alt }
      = ({ processed := true,
           message := "Checkout processed for order " ++ o.orderNumber },
         OrderRepository.updatePaymentStatus orders o.id
           (if s.payment_status = "paid" then PaymentStatus.PAID
            else PaymentStatus.PENDING) (some sid)) := by
      unfold StripeWebhookController.handleCheckoutSessionCompleted
      rw [hid2, hnum2]
      dsimp only
      rw [hret]
      dsimp only
      rw [hfind]
    rw [halt, hmain]

/-- Witness for C5: the paid gateway session flips the pending sample order
to `PAID` even though the payload itself claims it is unpaid. -/
theorem spec_C5_webhook_maps_gateway_status_witness :
    StripeWebhookController.handleCheckoutSessionCompleted sampleRetrieve
        [samplePendingOrder] samplePayload
      = ({ processed := true,
           message := "Checkout processed for order "
             ++ samplePendingOrder.orderNumber },
         OrderRepository.updatePaymentStatus [samplePendingOrder]
           samplePendingOrder.id
           (if ({ payment_status := "paid" } : StripeSessionState).payment_status = "paid"
            then PaymentStatus.PAID else PaymentStatus.PENDING)
           (some "sess-1")) ∧
    (∀ o2 ∈ (StripeWebhookController.handleCheckoutSessionCompleted
        sampleRetrieve [samplePendingOrder] samplePayload).2,
      o2.id = samplePendingOrder.id →
      o2.paymentStatus
        = (if ({ payment_status := "paid" } : StripeSessionState).payment_status = "paid"
           then PaymentStatus.PAID else PaymentStatus.PENDING)) ∧
    (∀ alt : String,
      StripeWebhookController.handleCheckoutSessionCompleted sampleRetrieve
          [samplePendingOrder] { samplePayload with payment_status := alt }
        = StripeWebhookController.handleCheckoutSessionCompleted
            sampleRetrieve [samplePendingOrder] samplePayload) :=
  spec_C5_webhook_maps_gateway_status sampleRetrieve [samplePendingOrder]
    samplePayload "sess-1" "ORD-2" { payment_status := "paid" }
    samplePendingOrder (by decide) (by decide) (by decide) (by decide)

/-- C6: a checkout-session-completed webhook whose order number matches no
existing active order mutates no order, is reported as not processed, and
the endpoint still answers 200. -/
theorem spec_C6_webhook_unknown_order
    (retrieve : String → Option StripeSessionState) (orders : List Order)
    (payload : WebhookPayload) (onum : String)
    (hnum : payload.orderNum = some onum)
    (hfind : OrderRepository.findByOrderNumber orders onum = none) :
    (StripeWebhookController.handleWebhook retrieve orders
      "checkout.session.completed" payload).1 = 200 ∧
    (StripeWebhookController.handleWebhook retrieve orders
      "checkout.session.completed" payload).2.1.processed = false ∧
    (StripeWebhookController.handleWebhook retrieve orders
      "checkout.session.completed" payload).2.2 = orders := by
  have hproc : (StripeWebhookController.processWebhookEvent retrieve orders
      "checkout.session.completed" payload).1.processed = false ∧
      (StripeWebhookController.processWebhookEvent retrieve orders
      "checkout.session.completed" payload).2 = orders := by
    unfold StripeWebhookController.processWebhookEvent
    rw [if_pos rfl]
    unfold StripeWebhookController.handleCheckoutSessionCompleted
    rw [hnum]
    cases hid : payload.id with
    | none => exact ⟨rfl, rfl⟩
    | some sid =>
      dsimp only
      cases hret : retrieve sid with
      | none => exact ⟨rfl, rfl⟩
      | some s =>
        dsimp only
        rw [hfind]
        exact ⟨rfl, rfl⟩
  exact ⟨rfl, hproc.1, hproc.2⟩

/-- Witness for C6: a webhook naming order number ORD-9, unknown to a store
holding only the pending sample order, changes nothing and answers 200. -/
theorem spec_C6_webhook_unknown_order_witness :
    (StripeWebhookController.handleWebhook sampleRetrieve
      [samplePendingOrder] "checkout.session.completed"
      { samplePayload with orderNum := some "ORD-9" }).1 = 200 ∧
    (StripeWebhookController.handleWebhook sampleRetrieve
      [samplePendingOrder] "checkout.session.completed"
      { samplePayload with orderNum := some "ORD-9" }).2.1.processed
      = false ∧
    (StripeWebhookController.handleWebhook sampleRetrieve
      [samplePendingOrder] "checkout.session.completed"
      { samplePayload with orderNum := some "ORD-9" }).2.2
      = [samplePendingOrder] :=
  spec_C6_webhook_unknown_order sampleRetrieve [samplePendingOrder]
    { samplePayload with orderNum := some "ORD-9" } "ORD-9"
    (by decide) (by decide)

/-- C9: when the ticket's owner adds a non-empty message, the message is
appended to the thread and the status becomes `OPEN` exactly when it was
`WAITING_CUSTOMER`, staying unchanged otherwise. -/
theorem spec_C9_customer_message_reopens_ticket (t : Ticket)
    (userId message : String) (now : Nat)
    (hmsg : message ≠ "") (howner : t.user = userId) :
    ∃ t2, TicketController.addMessage (some t) userId message now
        = (200, some t2) ∧
      t2.messages = t.messages ++
        [{ sender := userId, senderRole := UserRole.USER, message := message,
           createdAt := now }] ∧
      t2.status = (if t.status = TicketStatus.WAITING_CUSTOMER
        then TicketStatus.OPEN else t.status) := by
  have h200 : TicketController.addMessage (some t) userId message now
      = (200, some (TicketRepository.updateStatus
          (TicketRepository.addMessage t
            { sender := userId, senderRole := UserRole.USER,
              message := message, createdAt := now })
          (if t.status = TicketStatus.WAITING_CUSTOMER then TicketStatus.OPEN
           else t.status))) := by
    unfold TicketController.addMessage
    rw [if_neg hmsg]
    dsimp only
    rw [if_neg (fun h => h howner)]
  exact ⟨_, h200, rfl, rfl⟩

/-- Concrete ticket in `WAITING_CUSTOMER` owned by u1. -/
def sampleWaitingTicket : Ticket :=
  { ticketId := "T1", user := "u1",
    status := TicketStatus.WAITING_CUSTOMER, messages := [],
    lastResponseAt := none }

/-- Witness for C9: the owner's reply to the waiting sample ticket appends
the message and re-opens the ticket. -/
theorem spec_C9_customer_message_reopens_ticket_witness :
    ∃ t2, TicketController.addMessage (some sampleWaitingTicket) "u1"
        "hello" 5 = (200, some t2) ∧
      t2.messages = sampleWaitingTicket.messages ++
        [{ sender := "u1", senderRole := UserRole.USER, message := "hello",
           createdAt := 5 }] ∧
      t2.status = (if sampleWaitingTicket.status
          = TicketStatus.WAITING_CUSTOMER
        then TicketStatus.OPEN else sampleWaitingTicket.status) :=
  spec_C9_customer_message_reopens_ticket sampleWaitingTicket "u1" "hello" 5
    (by decide) (by decide)

end ECom
